import Mathlib

/-!
Shallow embedding of the opsorch-core provider-resolution core: the
capability registry (`registry/registry.go`), the dispatch error mapping
(`api/respond.go`: `writeProviderError`), the plugin RPC response decoding
(`api/plugin_runner.go`), the configuration loader
(`api/provider_config_handler.go`: `decodeConfig`, `loadProviderConfig`,
`handleProviderConfig`), the per-capability handler construction
(`api/incident_handler.go` and its siblings) and the server constructor
(`api/server.go`: `NewServerFromEnv`).

Go `map[string]any` JSON values are modelled by an explicit `Json` tree;
the standard-library JSON codec (`encoding/json`) is external to the
repository and enters as an explicit function parameter wherever the code
calls it.  A Go `nil` map is distinguished from an empty map by an
`Option`.
-/

namespace OpsOrch

/-- JSON values, the carrier for Go `any` values produced by `encoding/json`. -/
inductive Json where
  | null : Json
  | bool (b : Bool) : Json
  | num (n : Int) : Json
  | str (s : String) : Json
  | arr (xs : List Json) : Json
  | obj (fields : List (String × Json)) : Json

/-- A Go `map[string]any` holding JSON data. -/
abbrev ConfigMap := List (String × Json)

/-- A possibly-`nil` Go map (`none` is Go `nil`, `some []` the empty map `{}`). -/
abbrev GoMap := Option ConfigMap

/-! ### Go string primitives

Lean's built-in `String.toLower`, `String.trim` and friends are
position-based loops that the kernel cannot evaluate, so the Go
standard-library string functions the source uses are modelled charwise
over the underlying character list. -/

/-- Go `strings.ToLower`, charwise. -/
def goToLower (s : String) : String := ⟨s.data.map Char.toLower⟩

/-- Go `strings.TrimSpace`: drop leading and trailing whitespace. -/
def goTrimSpace (s : String) : String :=
  ⟨(s.data.dropWhile Char.isWhitespace).reverse.dropWhile Char.isWhitespace |>.reverse⟩

/-- Whether the first list heads the second. -/
def leadsList : List Char → List Char → Bool
  | [], _ => true
  | _ :: _, [] => false
  | a :: as, b :: bs => a = b && leadsList as bs

/-- Go `strings.HasPrefix s pre`. -/
def goHasLead (s pre : String) : Bool := leadsList pre.data s.data

/-- Splitting accumulator for `goSplitSlash`. -/
def goSplitSlashAux : List Char → List Char → List String
  | [], acc => [⟨acc.reverse⟩]
  | c :: cs, acc =>
      if c = '/' then ⟨acc.reverse⟩ :: goSplitSlashAux cs []
      else goSplitSlashAux cs (c :: acc)

/-- Go `strings.Split(s, "/")` (`[""]` on the empty string). -/
def goSplitSlash (s : String) : List String := goSplitSlashAux s.data []

/-- A Go `error` value as seen by `writeProviderError`: either an
`orcherr.OpsOrchError` (`Code`, `Message`; the wrapped `Err` field never
reaches the response body) or any other error, of which only the
`Error()` text is observable. -/
inductive GoError where
  | typed (code message : String) : GoError
  | untyped (text : String) : GoError
deriving DecidableEq, Repr

/-- An error response as written by `writeError`: HTTP status plus the JSON
body `{"code": .., "message": ..}`. -/
structure ErrorResponse where
  status : Nat
  code : String
  message : String
deriving DecidableEq, Repr

/-- Model of `writeProviderError` from `api/respond.go`: a typed `OpsOrchError` keeps
its own code and message, with status 404 for code `not_found`, 400 for
`bad_request` and 502 otherwise; any other error becomes a 502 with code
`provider_error` and the error text as message. -/
def writeProviderError : GoError → ErrorResponse
  | .typed c m =>
      { status := if c = "not_found" then 404 else if c = "bad_request" then 400 else 502
        code := c
        message := m }
  | .untyped t => { status := 502, code := "provider_error", message := t }

/-! ### Capability registry (`registry/registry.go`)

The Go registry is a `map[string]C` guarded by a lock.  We model the map
as an association list; reachable registries keep keys unique and
case-folded (`Registry.WF`), exactly the invariant the Go map plus
`normalize` maintain. -/

/-- Model of `normalize` from `registry/registry.go`: case-fold a provider name. -/
def normalize (name : String) : String := goToLower name

/-- The per-capability registry state: the `providers` map. -/
structure Registry (C : Type) where
  providers : List (String × C)
deriving DecidableEq, Repr

/-- Model of `registry.New`: an empty registry. -/
def Registry.new {C : Type} : Registry C := ⟨[]⟩

/-- Model of `Registry.Register`: returns the error (if any) together with the
post-call registry state; an empty name or a case-folded collision fails
and leaves the map untouched. -/
def Registry.register {C : Type} (r : Registry C) (name : String) (c : C) :
    Option String × Registry C :=
  if name = "" then (some "registry: provider name required", r)
  else
    let key := normalize name
    if r.providers.any (fun p => p.1 = key) then
      (some ("registry: provider " ++ name ++ " already registered"), r)
    else (none, ⟨(key, c) :: r.providers⟩)

/-- Model of `Registry.Get`: case-insensitive constructor lookup. -/
def Registry.get {C : Type} (r : Registry C) (name : String) : Option C :=
  (r.providers.find? (fun p => p.1 = normalize name)).map (·.2)

/-- Model of `Registry.Names`: the registered keys, sorted (Go `sort.Strings`). -/
def Registry.names {C : Type} (r : Registry C) : List String :=
  (r.providers.map Prod.fst).mergeSort (fun a b => decide (a ≤ b))

/-- The invariant every reachable registry satisfies: map keys are unique
(automatic for a Go map) and already case-folded (what `Register` stores). -/
def Registry.WF {C : Type} (r : Registry C) : Prop :=
  (r.providers.map Prod.fst).Nodup ∧ ∀ p ∈ r.providers, normalize p.1 = p.1

/-! ### Plugin RPC runner (`api/plugin_runner.go`)

`pluginRunner.call` has two halves: a lifecycle half (start the child
process once, under the runner's lock, with `exec.CommandContext`
deliberately given `context.Background()` instead of the caller's
context) and a protocol half (encode one `rpcRequest`, decode one
`rpcResponse`, then classify it).  Both are modelled; the `encoding/json`
unmarshalling of the raw result into the caller's `out` value enters as a
function parameter. -/

/-- Model of `rpcError` from `api/plugin_runner.go`. -/
structure RpcError where
  code : String
  message : String
deriving DecidableEq, Repr

/-- Model of `rpcResponse` from `api/plugin_runner.go`: the raw `result` bytes
(`json.RawMessage`, `none` when absent) and the optional error. -/
structure RpcResponse where
  result : Option String
  error : Option RpcError
deriving DecidableEq, Repr

/-- The outcome of one `pluginRunner.call` after the response envelope is
decoded: success (with the value unmarshalled into `out`, if any), a typed
`OpsOrchError`, an untyped error built from the message, or a failure of
the final unmarshal into `out`. -/
inductive CallOutcome (α : Type) where
  | success (decoded : Option α) : CallOutcome α
  | typedError (code message : String) : CallOutcome α
  | untypedError (message : String) : CallOutcome α
  | unmarshalError (e : String) : CallOutcome α
deriving DecidableEq, Repr

/-- The response-classification half of `pluginRunner.call` (lines 78-89):
a declared error with non-empty code becomes `orcherr.New(code, message)`;
an error with empty code becomes `fmt.Errorf(message)`; otherwise the raw
result is unmarshalled into `out` only when both `out` and the result are
non-nil (`outPresent` is `out != nil`). -/
def pluginCallDecode {α : Type} (unmarshal : String → Except String α)
    (outPresent : Bool) (resp : RpcResponse) : CallOutcome α :=
  match resp.error with
  | some e =>
      if e.code ≠ "" then .typedError e.code e.message
      else .untypedError e.message
  | none =>
      if outPresent then
        match resp.result with
        | some r =>
            match unmarshal r with
            | .error err => .unmarshalError err
            | .ok v => .success (some v)
        | none => .success none
      else .success none

/-- Context identifiers; `backgroundCtx` stands for `context.Background()`,
which is never cancelled.  Caller request contexts are any other id. -/
abbrev CtxId := Nat

/-- Model of `context.Background()`. -/
def backgroundCtx : CtxId := 0

/-- The mutable part of a `pluginRunner`: the `cmd` field (`none` until the
first call starts the child process) and the context the process was
bound to via `exec.CommandContext`. -/
structure RunnerState where
  path : String
  config : GoMap
  proc : Option Nat
  procCtx : CtxId

/-- Model of `newPluginRunner`: no process yet; a `nil` config map is replaced by
the empty map. -/
def newPluginRunner (path : String) (config : GoMap) : RunnerState :=
  { path := path
    config := some (config.getD [])
    proc := none
    procCtx := backgroundCtx }

/-- The start-once guard at the top of `pluginRunner.call`: if `r.cmd` is
nil, start the child (`fresh` names the new process) with
`exec.CommandContext(context.Background(), r.path)` — the caller's
context is deliberately not used — otherwise reuse the live process. -/
def ensureProcess (s : RunnerState) (fresh : Nat) : RunnerState :=
  match s.proc with
  | some _ => s
  | none => { s with proc := some fresh, procCtx := backgroundCtx }

/-- Go `exec.CommandContext` semantics: cancelling context `c` kills
exactly the processes whose command was bound to `c`; every other process
is untouched. -/
def cancelCtx (s : RunnerState) (c : CtxId) : RunnerState :=
  if s.procCtx = c then { s with proc := none } else s

/-- One full `pluginRunner.call`: take the lock, start the process if
needed, write one envelope and read one back (`resp` is what the child
answers), classify it.  The caller's context `_ctx` plays no role in the
process lifecycle, exactly as in the source. -/
def pluginCall {α : Type} (s : RunnerState) (_ctx : CtxId) (fresh : Nat)
    (unmarshal : String → Except String α) (outPresent : Bool)
    (resp : RpcResponse) : RunnerState × CallOutcome α :=
  let s' := ensureProcess s fresh
  (s', pluginCallDecode unmarshal outPresent resp)

/-! ### Configuration loader (`api/provider_config_handler.go`)

The environment is a function from variable name to value (`os.Getenv`);
`encoding/json` parsing of the config blob and of a stored selection are
explicit function parameters (`parse`, `parseStored`).  The secret store
is `none` when `sec == nil`, otherwise its `Get` method.  The loader is
instrumented with a boolean recording whether `sec.Get` was invoked. -/

/-- Model of `providerConfigRequest` and of the stored provider selection
`{provider, config, plugin}`. -/
structure ProviderConfigReq where
  provider : String
  config : GoMap
  plugin : String

/-- Model of `providerConfigKey`: the logical store key for a capability. -/
def providerConfigKey (capability : String) : String :=
  "providers/" ++ goToLower capability ++ "/default"

/-- Model of `decodeConfig`: read the config env var; an absent (empty after trim)
blob defaults to the empty map `{}`; a present blob that fails to parse is
a configuration error naming the variable. -/
def decodeConfig (parse : String → Except String GoMap)
    (env : String → String) (envVar : String) : Except String GoMap :=
  let raw := goTrimSpace (env envVar)
  if raw = "" then .ok (some [])
  else
    match parse raw with
    | .error e => .error ("invalid config in " ++ envVar ++ ": " ++ e)
    | .ok cfg => .ok cfg

/-- Model of `loadProviderConfig`: resolve `(name, config, pluginPath)` for a
capability.  Environment signals win; the store is consulted only when
both are empty; a store `Get` failure means "no stored selection".  The
second component records whether the store's `Get` was called. -/
def loadProviderConfig (parse : String → Except String GoMap)
    (parseStored : String → Except String ProviderConfigReq)
    (sec : Option (String → Except String String))
    (env : String → String)
    (capability envProvider envConfig envPlugin : String) :
    Except String (String × GoMap × String) × Bool :=
  let name := goTrimSpace (goToLower (env envProvider))
  let pluginPath := goTrimSpace (env envPlugin)
  match decodeConfig parse env envConfig with
  | .error e => (.error e, false)
  | .ok cfg =>
      if name ≠ "" ∨ pluginPath ≠ "" then (.ok (name, cfg, pluginPath), false)
      else
        match sec with
        | none => (.ok ("", none, ""), false)
        | some get =>
            match get (providerConfigKey capability) with
            | .error _ => (.ok ("", none, ""), true)
            | .ok raw =>
                match parseStored raw with
                | .error e => (.error e, true)
                | .ok st => (.ok (st.provider, st.config, st.plugin), true)

/-! ### Per-capability handler construction and `NewServerFromEnv`

`newIncidentHandlerFromEnv`, `newLogHandlerFromEnv`,
`newDeploymentHandlerFromEnv`, … share one shape (shown for incidents in
`api/incident_handler.go`): load the provider config; an error or a
doubly-empty selection returns early; a plugin path builds a plugin
provider; otherwise the registry constructor runs.  The one deviation is
`newAlertHandlerFromEnv`, whose plugin branch fails with
`alert plugins not yet supported` instead of building a plugin provider;
it is modelled separately below.  A resolved provider is either a plugin
handle or an in-process value. -/

/-- A resolved provider handle: a plugin runner over a path and config, or
an in-process provider value. -/
inductive ProviderHandle (P : Type) where
  | plugin (path : String) (config : GoMap) : ProviderHandle P
  | inProc (p : P) : ProviderHandle P

/-- A provider constructor as stored in a capability registry. -/
abbrev Ctor (P : Type) := GoMap → Except String P

/-- The common body of `new<Cap>HandlerFromEnv`: `.ok none` is the empty
handler (unconfigured capability), `.error` a resolution failure. -/
def newHandlerFromEnv {P : Type} (parse : String → Except String GoMap)
    (parseStored : String → Except String ProviderConfigReq)
    (sec : Option (String → Except String String))
    (env : String → String)
    (capability envProvider envConfig envPlugin : String)
    (lookup : String → Option (Ctor P)) :
    Except String (Option (ProviderHandle P)) :=
  match (loadProviderConfig parse parseStored sec env
      capability envProvider envConfig envPlugin).1 with
  | .error e => .error e
  | .ok (name, cfg, pluginPath) =>
      if name = "" ∧ pluginPath = "" then .ok none
      else if pluginPath ≠ "" then .ok (some (.plugin pluginPath cfg))
      else
        match lookup name with
        | none => .error (capability ++ " provider " ++ name ++ " not registered")
        | some ctor =>
            match ctor cfg with
            | .error e => .error e
            | .ok p => .ok (some (.inProc p))

/-- Model of `newAlertHandlerFromEnv` (`src/unnamed/part_004` lines 18-36):
same shape as the other capability handlers except that a non-empty
plugin path is rejected — plugins are not yet implemented for alerts. -/
def newAlertHandlerFromEnv {P : Type} (parse : String → Except String GoMap)
    (parseStored : String → Except String ProviderConfigReq)
    (sec : Option (String → Except String String))
    (env : String → String)
    (lookup : String → Option (Ctor P)) :
    Except String (Option (ProviderHandle P)) :=
  match (loadProviderConfig parse parseStored sec env
      "alert" "OPSORCH_ALERT_PROVIDER" "OPSORCH_ALERT_CONFIG" "OPSORCH_ALERT_PLUGIN").1 with
  | .error e => .error e
  | .ok (name, cfg, pluginPath) =>
      if name = "" ∧ pluginPath = "" then .ok none
      else if pluginPath ≠ "" then .error "alert plugins not yet supported"
      else
        match lookup name with
        | none => .error ("alert provider " ++ name ++ " not registered")
        | some ctor =>
            match ctor cfg with
            | .error e => .error e
            | .ok p => .ok (some (.inProc p))

/-- The capability handler fields of `api.Server` (the pass-through string
fields `corsOrigin`/`bearerToken` and the serve hooks carry no resolution
state and are omitted; the TLS file names only feed the consistency check
in `NewServerFromEnv`, which is modelled). -/
structure Server (P : Type) where
  incident : Option (ProviderHandle P)
  alert : Option (ProviderHandle P)
  log : Option (ProviderHandle P)
  metric : Option (ProviderHandle P)
  ticket : Option (ProviderHandle P)
  messaging : Option (ProviderHandle P)
  service : Option (ProviderHandle P)
  deployment : Option (ProviderHandle P)

/-- Registry lookups for the eight capabilities resolved at startup. -/
structure Lookups (P : Type) where
  incident : String → Option (Ctor P)
  alert : String → Option (Ctor P)
  log : String → Option (Ctor P)
  metric : String → Option (Ctor P)
  ticket : String → Option (Ctor P)
  messaging : String → Option (Ctor P)
  service : String → Option (Ctor P)
  deployment : String → Option (Ctor P)

/-- Model of `NewServerFromEnv` (`api/server.go`): after the TLS cert/key pairing
check, resolve the eight capabilities in order; a resolution failure in
incident, alert, log, metric, ticket, messaging or service aborts
construction, while a deployment failure is logged and replaced by the
empty handler.  The secret provider (whose own construction error also
aborts, before any capability) is passed in as the already-resolved
`sec`. -/
def newServerFromEnv {P : Type} (parse : String → Except String GoMap)
    (parseStored : String → Except String ProviderConfigReq)
    (sec : Option (String → Except String String))
    (env : String → String) (lk : Lookups P) :
    Except String (Server P) :=
  let tlsCert := goTrimSpace (env "OPSORCH_TLS_CERT_FILE")
  let tlsKey := goTrimSpace (env "OPSORCH_TLS_KEY_FILE")
  if decide (tlsCert = "") ≠ decide (tlsKey = "") then
    .error "both OPSORCH_TLS_CERT_FILE and OPSORCH_TLS_KEY_FILE must be set together"
  else do
    let inc ← newHandlerFromEnv parse parseStored sec env "incident"
      "OPSORCH_INCIDENT_PROVIDER" "OPSORCH_INCIDENT_CONFIG" "OPSORCH_INCIDENT_PLUGIN" lk.incident
    let al ← newAlertHandlerFromEnv parse parseStored sec env lk.alert
    let lg ← newHandlerFromEnv parse parseStored sec env "log"
      "OPSORCH_LOG_PROVIDER" "OPSORCH_LOG_CONFIG" "OPSORCH_LOG_PLUGIN" lk.log
    let mt ← newHandlerFromEnv parse parseStored sec env "metric"
      "OPSORCH_METRIC_PROVIDER" "OPSORCH_METRIC_CONFIG" "OPSORCH_METRIC_PLUGIN" lk.metric
    let tk ← newHandlerFromEnv parse parseStored sec env "ticket"
      "OPSORCH_TICKET_PROVIDER" "OPSORCH_TICKET_CONFIG" "OPSORCH_TICKET_PLUGIN" lk.ticket
    let msg ← newHandlerFromEnv parse parseStored sec env "messaging"
      "OPSORCH_MESSAGING_PROVIDER" "OPSORCH_MESSAGING_CONFIG" "OPSORCH_MESSAGING_PLUGIN" lk.messaging
    let svc ← newHandlerFromEnv parse parseStored sec env "service"
      "OPSORCH_SERVICE_PROVIDER" "OPSORCH_SERVICE_CONFIG" "OPSORCH_SERVICE_PLUGIN" lk.service
    let dep :=
      match newHandlerFromEnv parse parseStored sec env "deployment"
        "OPSORCH_DEPLOYMENT_PROVIDER" "OPSORCH_DEPLOYMENT_CONFIG" "OPSORCH_DEPLOYMENT_PLUGIN" lk.deployment with
      | .error _ => none
      | .ok p => p
    return { incident := inc, alert := al, log := lg, metric := mt,
             ticket := tk, messaging := msg, service := svc, deployment := dep }

/-! ### Capability dispatch (`api/incident_handler.go`, `api/capability.go`)

Requests are `(method, path, body)`.  Payload decoding (`decodeJSON` with
`DisallowUnknownFields`, one JSON shape per operation) and the provider's
operations are abstracted over one payload type `α`; audit-log emission
has no effect on responses and is omitted. -/

/-- A response body: an error object `{"code", "message"}`, a provider
result payload, or the fixed `{"status":"ok"}` object. -/
inductive ResponseBody (α : Type) where
  | err (code message : String) : ResponseBody α
  | payload (a : α) : ResponseBody α
  | okStatus : ResponseBody α
deriving DecidableEq, Repr

/-- What one capability handler does with a request: decline (return
`false`, let the next handler try) or write a response. -/
inductive DispatchResult (α : Type) where
  | declined : DispatchResult α
  | respond (status : Nat) (body : ResponseBody α) : DispatchResult α
deriving DecidableEq, Repr

/-- Render a provider error with `writeProviderError`. -/
def providerErrorResult {α : Type} (e : GoError) : DispatchResult α :=
  .respond (writeProviderError e).status
    (.err (writeProviderError e).code (writeProviderError e).message)

/-- Go `strings.TrimSuffix(s, "/")`: drop one trailing slash if present. -/
def goTrimOneSuffixSlash (s : String) : String :=
  if s.data.getLast? = some '/' then ⟨s.data.dropLast⟩ else s

/-- Go `strings.Trim(s, "/")`: drop all leading and trailing slashes. -/
def goTrimSlashes (s : String) : String :=
  ⟨(((s.toList.dropWhile (· = '/')).reverse.dropWhile (· = '/')).reverse)⟩

/-- The incident provider surface used by `Server.handleIncident`
(`incident.Provider`); contexts are omitted and all payload shapes share
the carrier `α`. -/
structure IncidentOps (α : Type) where
  query : α → Except GoError α
  list : Unit → Except GoError α
  create : α → Except GoError α
  get : String → Except GoError α
  update : String → α → Except GoError α
  getTimeline : String → Except GoError α
  appendTimeline : String → α → Except GoError Unit

/-- Model of `Server.handleIncident`: decline when the path misses the `/incidents`
prefix; answer 501 `incident_provider_missing` when no provider is
configured; otherwise split the path into segments and dispatch the
seven operations in source order (the timeline-append default timestamp
lives inside the opaque payload). -/
def handleIncident {α : Type} (decode : String → Except String α)
    (prov : Option (IncidentOps α)) (method path body : String) :
    DispatchResult α :=
  if ¬ goHasLead path "/incidents" then .declined
  else
    match prov with
    | none =>
        .respond 501 (.err "incident_provider_missing" "incident provider not configured")
    | some p =>
        let segments := goSplitSlash (goTrimSlashes (goTrimOneSuffixSlash path))
        if segments.length = 2 ∧ segments.getD 1 "" = "query" ∧ method = "POST" then
          match decode body with
          | .error e => .respond 400 (.err "bad_request" e)
          | .ok q =>
              match p.query q with
              | .error e => providerErrorResult e
              | .ok v => .respond 200 (.payload v)
        else if segments.length = 1 ∧ method = "GET" then
          match p.list () with
          | .error e => providerErrorResult e
          | .ok v => .respond 200 (.payload v)
        else if segments.length = 1 ∧ method = "POST" then
          match decode body with
          | .error e => .respond 400 (.err "bad_request" e)
          | .ok q =>
              match p.create q with
              | .error e => providerErrorResult e
              | .ok v => .respond 201 (.payload v)
        else if segments.length = 2 ∧ method = "GET" then
          match p.get (segments.getD 1 "") with
          | .error e => providerErrorResult e
          | .ok v => .respond 200 (.payload v)
        else if segments.length = 2 ∧ method = "PATCH" then
          match decode body with
          | .error e => .respond 400 (.err "bad_request" e)
          | .ok q =>
              match p.update (segments.getD 1 "") q with
              | .error e => providerErrorResult e
              | .ok v => .respond 200 (.payload v)
        else if segments.length = 3 ∧ segments.getD 2 "" = "timeline" ∧ method = "GET" then
          match p.getTimeline (segments.getD 1 "") with
          | .error e => providerErrorResult e
          | .ok v => .respond 200 (.payload v)
        else if segments.length = 3 ∧ segments.getD 2 "" = "timeline" ∧ method = "POST" then
          match decode body with
          | .error e => .respond 400 (.err "bad_request" e)
          | .ok q =>
              match p.appendTimeline (segments.getD 1 "") q with
              | .error e => providerErrorResult e
              | .ok _ => .respond 201 .okStatus
        else .declined

/-- Model of `Server.handleLog`: exact-path match on `/logs/query`, then the
missing-provider gate, then the method check, then decode and query. -/
def handleLog {α : Type} (decode : String → Except String α)
    (prov : Option (α → Except GoError α)) (method path body : String) :
    DispatchResult α :=
  if path ≠ "/logs/query" then .declined
  else
    match prov with
    | none => .respond 501 (.err "log_provider_missing" "log provider not configured")
    | some q =>
        if method ≠ "POST" then .declined
        else
          match decode body with
          | .error e => .respond 400 (.err "bad_request" e)
          | .ok query =>
              match q query with
              | .error e => providerErrorResult e
              | .ok results => .respond 200 (.payload results)

/-! ### Runtime reconfiguration (`Server.handleProviderConfig`) -/

/-- The canonical capability keys produced by `normalizeCapability`
(`api/capability.go`). -/
inductive Cap where
  | incident | alert | log | metric | ticket | messaging | service | deployment
deriving DecidableEq, Repr

/-- The canonical string for each capability key. -/
def Cap.name : Cap → String
  | .incident => "incident"
  | .alert => "alert"
  | .log => "log"
  | .metric => "metric"
  | .ticket => "ticket"
  | .messaging => "messaging"
  | .service => "service"
  | .deployment => "deployment"

/-- Model of `normalizeCapability`: map plural or variant path segments to the
canonical capability key. -/
def normalizeCapability (name : String) : Option Cap :=
  match goToLower name with
  | "incident" => some .incident
  | "incidents" => some .incident
  | "alert" => some .alert
  | "alerts" => some .alert
  | "log" => some .log
  | "logs" => some .log
  | "metric" => some .metric
  | "metrics" => some .metric
  | "ticket" => some .ticket
  | "tickets" => some .ticket
  | "message" => some .messaging
  | "messages" => some .messaging
  | "messaging" => some .messaging
  | "service" => some .service
  | "services" => some .service
  | "deployment" => some .deployment
  | "deployments" => some .deployment
  | _ => none

/-- Go `strings.TrimPrefix`: drop `pre` when it heads `s`. -/
def goStripLead (s pre : String) : String :=
  if goHasLead s pre then ⟨s.data.drop pre.data.length⟩ else s

/-- The shared body of the `Server.handle<Cap>ProviderConfig` family: a
non-empty plugin path wins and always constructs a plugin handle;
otherwise the named registry constructor must exist and accept the
config. -/
def applyProviderConfig {P : Type} (lookup : String → Option (Ctor P))
    (capability name pluginPath : String) (cfg : GoMap) :
    Except String (ProviderHandle P) :=
  if pluginPath ≠ "" then .ok (.plugin pluginPath cfg)
  else
    match lookup name with
    | none => .error (capability ++ " provider " ++ name ++ " not registered")
    | some ctor =>
        match ctor cfg with
        | .error e => .error e
        | .ok p => .ok (.inProc p)

/-- The capabilities `handleProviderConfig`'s switch supports; the others
fall to its `default: unknown capability` branch. -/
def configSwitchCaps : List Cap :=
  [.incident, .log, .metric, .ticket, .messaging, .service]

/-- The outcome of `handleProviderConfig`: declined, or a response written
alongside the (possibly already mutated) per-capability provider map. -/
inductive ConfigOutcome (P : Type) where
  | declined : ConfigOutcome P
  | respond (status : Nat) (body : ResponseBody Unit)
      (providers : Cap → Option (ProviderHandle P)) : ConfigOutcome P

/-- Model of `Server.handleProviderConfig`: POST `/providers/<capability>`.
Requires a secret provider; normalizes the capability; decodes the
request strictly; applies the new selection to the in-memory handler
first, and only then persists it through the secret store (`marshal`
models `json.Marshal`, `put` the store's `Put`); a persistence failure
answers 502 `secret_store_error` after the in-memory swap has already
happened. -/
def handleProviderConfig {P : Type}
    (decodeReq : String → Except String ProviderConfigReq)
    (marshal : ProviderConfigReq → Except String String)
    (lookup : Cap → String → Option (Ctor P))
    (secretPut : Option (String → String → Option String))
    (provs : Cap → Option (ProviderHandle P))
    (method path body : String) : ConfigOutcome P :=
  if ¬ (goHasLead path "/providers/" ∧ method = "POST") then .declined
  else
    match secretPut with
    | none =>
        .respond 501 (.err "secret_provider_missing" "secret provider not configured") provs
    | some put =>
        match normalizeCapability (goStripLead path "/providers/") with
        | none => .respond 404 (.err "not_found" "unknown capability") provs
        | some cap =>
            match decodeReq body with
            | .error e => .respond 400 (.err "bad_request" e) provs
            | .ok req =>
                if req.provider = "" then
                  .respond 400 (.err "bad_request" "provider required") provs
                else if cap ∈ configSwitchCaps then
                  match applyProviderConfig (lookup cap) cap.name req.provider
                      req.plugin req.config with
                  | .error e => .respond 400 (.err "bad_request" e) provs
                  | .ok newProv =>
                      let provs' := fun c => if c = cap then some newProv else provs c
                      match marshal req with
                      | .error e => .respond 502 (.err "secret_store_error" e) provs'
                      | .ok bytes =>
                          match put (providerConfigKey cap.name) bytes with
                          | some e => .respond 502 (.err "secret_store_error" e) provs'
                          | none => .respond 200 .okStatus provs'
                else .respond 404 (.err "not_found" "unknown capability") provs

/-! ### Concrete startup scenarios

Inputs used to exercise `newServerFromEnv` on concrete data: a JSON parser
fragment, environments, and lookup tables. -/

/-- A parser that rejects its input, standing in for `encoding/json` on the
malformed blob `{bad`. -/
def rejectParse : String → Except String GoMap :=
  fun _ => .error "unexpected end of JSON input"

/-- Environment in which the incident capability has a malformed JSON
config blob while the log capability names a registered provider. -/
def badIncidentEnv : String → String := fun v =>
  if v = "OPSORCH_INCIDENT_CONFIG" then "\x7bbad"
  else if v = "OPSORCH_LOG_PROVIDER" then "mock"
  else ""

/-- Lookup tables where only the log capability has a registered provider,
named `mock`. -/
def mockLogLookups : Lookups Unit where
  incident := fun _ => none
  alert := fun _ => none
  log := fun n => if n = "mock" then some (fun _ => .ok ()) else none
  metric := fun _ => none
  ticket := fun _ => none
  messaging := fun _ => none
  service := fun _ => none
  deployment := fun _ => none

/-- Environment in which only the deployment capability names a provider,
one that is not registered anywhere. -/
def ghostDeploymentEnv : String → String := fun v =>
  if v = "OPSORCH_DEPLOYMENT_PROVIDER" then "ghost" else ""

/-- Lookup tables with no registered providers at all. -/
def emptyLookups : Lookups Unit where
  incident := fun _ => none
  alert := fun _ => none
  log := fun _ => none
  metric := fun _ => none
  ticket := fun _ => none
  messaging := fun _ => none
  service := fun _ => none
  deployment := fun _ => none

/-! ## Claims -/

/-- C2, counterexample: the claim demands a non-empty `message` field in
every provider-error response, but `writeProviderError` echoes a typed
error's message verbatim, so a provider returning
`OpsOrchError{Code: "not_found"}` with an empty message produces a 404
response whose body has `message = ""`. -/
theorem C2_counterexample :
    (writeProviderError (GoError.typed "not_found" "")).status = 404 ∧
    (writeProviderError (GoError.typed "not_found" "")).message = "" := by
  exact ⟨rfl, rfl⟩

/-- C2, amended: a typed provider error with code `not_found` maps to 404,
with code `bad_request` to 400, and any other code — as well as any
untyped error — to 502; the response body always carries `code` and
`message` fields, the code being the fixed non-empty `provider_error` for
untyped errors and the typed error's own code and message otherwise,
which are non-empty whenever the error's fields are non-empty. -/
theorem C2_error_status_mapping (c m t : String) :
    (c = "not_found" → (writeProviderError (GoError.typed c m)).status = 404) ∧
    (c = "bad_request" → (writeProviderError (GoError.typed c m)).status = 400) ∧
    (c ≠ "not_found" → c ≠ "bad_request" →
      (writeProviderError (GoError.typed c m)).status = 502) ∧
    writeProviderError (GoError.untyped t)
        = { status := 502, code := "provider_error", message := t } ∧
    (writeProviderError (GoError.untyped t)).code ≠ "" ∧
    (writeProviderError (GoError.typed c m)).code = c ∧
    (writeProviderError (GoError.typed c m)).message = m ∧
    (c ≠ "" → (writeProviderError (GoError.typed c m)).code ≠ "") ∧
    (m ≠ "" → (writeProviderError (GoError.typed c m)).message ≠ "") := by
  refine ⟨?_, ?_, ?_, rfl, by simp [writeProviderError], rfl, rfl, ?_, ?_⟩
  · intro h; simp [writeProviderError, h]
  · intro h; simp [writeProviderError, h]
  · intro h1 h2; simp [writeProviderError, h1, h2]
  · intro h; simpa [writeProviderError] using h
  · intro h; simpa [writeProviderError] using h

/-- C2, witness: the amended mapping evaluated at a typed `not_found`
error with a non-empty message and at an untyped error. -/
theorem C2_error_status_mapping_witness :
    (writeProviderError (GoError.typed "not_found" "incident i-1 missing")).status = 404 ∧
    (writeProviderError (GoError.typed "not_found" "incident i-1 missing")).message ≠ "" ∧
    (writeProviderError (GoError.untyped "boom")).status = 502 := by
  have h := C2_error_status_mapping "not_found" "incident i-1 missing" "boom"
  exact ⟨h.1 rfl, h.2.2.2.2.2.2.2.2 (by decide), by rw [h.2.2.2.1]⟩

/-- C6: registering a name whose case-folded form is already present (in
any casing) fails and leaves the registry map unchanged, so lookup under
every name is unaffected; registering the empty name also fails without
mutating the registry. -/
theorem C6_register_duplicate_atomic {C : Type} (r : Registry C) (n m : String) (c' : C)
    (hcase : normalize m = normalize n) (hexists : (r.get n).isSome) :
    (r.register m c').1.isSome ∧ (r.register m c').2 = r ∧
    (∀ k, (r.register m c').2.get k = r.get k) ∧
    (r.register "" c').1.isSome ∧ (r.register "" c').2 = r := by
  have hfind : (r.providers.find? (fun p => p.1 = normalize n)).isSome := by
    simpa [Registry.get] using hexists
  have hany : r.providers.any (fun p => p.1 = normalize m) = true := by
    rw [hcase]
    rcases List.find?_isSome.mp hfind with ⟨x, hx, hpx⟩
    exact List.any_eq_true.mpr ⟨x, hx, hpx⟩
  have hmain : (r.register m c').1.isSome ∧ (r.register m c').2 = r := by
    by_cases hm : m = ""
    · simp [Registry.register, hm]
    · simp [Registry.register, hm, hany]
  refine ⟨hmain.1, hmain.2, ?_, ?_, ?_⟩
  · intro k; rw [hmain.2]
  · simp [Registry.register]
  · simp [Registry.register]

/-- C6, witness: after registering `Mock`, re-registering `mOcK` fails and
the registry still answers `Get "MOCK"` with the original constructor. -/
theorem C6_register_duplicate_atomic_witness :
    ((((Registry.new.register "Mock" 42).2).register "mOcK" 7).1.isSome ∧
      (((Registry.new.register "Mock" 42).2).register "mOcK" 7).2
        = (Registry.new.register "Mock" 42).2) ∧
    (((Registry.new.register "Mock" 42).2).register "mOcK" 7).2.get "MOCK" = some 42 := by
  have h := C6_register_duplicate_atomic (Registry.new.register "Mock" 42).2
    "MOCK" "mOcK" 7 (by decide) (by decide)
  exact ⟨⟨h.1, h.2.1⟩, by rw [h.2.2.1 "MOCK"]; decide⟩

/-- C8: on any well-formed registry state, `Names()` is sorted ascending,
lists exactly the (case-folded) keys of the constructor map, and agrees
with the key set `Get` searches: a case-folded name is in `Names()` iff
`Get` of the name succeeds. -/
theorem C8_names_sorted_agree {C : Type} (r : Registry C) (h : r.WF) :
    r.names.Sorted (· ≤ ·) ∧
    (∀ k, k ∈ r.names ↔ k ∈ r.providers.map Prod.fst) ∧
    (∀ k, k ∈ r.names → normalize k = k) ∧
    (∀ nm, normalize nm ∈ r.names ↔ (r.get nm).isSome) := by
  have hperm := List.mergeSort_perm (r.providers.map Prod.fst) (fun a b => decide (a ≤ b))
  have hmem : ∀ k, k ∈ r.names ↔ k ∈ r.providers.map Prod.fst := fun k => hperm.mem_iff
  refine ⟨List.sorted_mergeSort' _, hmem, ?_, ?_⟩
  · intro k hk
    rcases List.mem_map.mp ((hmem k).mp hk) with ⟨p, hp, hpk⟩
    exact hpk ▸ h.2 p hp
  · intro nm
    rw [hmem]
    constructor
    · intro hkm
      rcases List.mem_map.mp hkm with ⟨p, hp, hpk⟩
      simp only [Registry.get, Option.isSome_map', List.find?_isSome]
      exact ⟨p, hp, by simpa using hpk⟩
    · intro hsome
      have hex : ∃ p, p ∈ r.providers ∧ p.1 = normalize nm := by
        simpa [Registry.get, List.find?_isSome] using hsome
      rcases hex with ⟨p, hp, hpk⟩
      exact List.mem_map.mpr ⟨p, hp, hpk⟩

/-- C8, witness: a two-entry registry whose `Names()` is sorted and agrees
with `Get` on the name `ALPHA`. -/
theorem C8_names_sorted_agree_witness :
    (Registry.names (⟨[("beta", 1), ("alpha", 2)]⟩ : Registry Nat)).Sorted (· ≤ ·) ∧
    (normalize "ALPHA" ∈ (⟨[("beta", 1), ("alpha", 2)]⟩ : Registry Nat).names ↔
      ((⟨[("beta", 1), ("alpha", 2)]⟩ : Registry Nat).get "ALPHA").isSome) := by
  have hwf : (⟨[("beta", 1), ("alpha", 2)]⟩ : Registry Nat).WF := ⟨by decide, by decide⟩
  exact ⟨(C8_names_sorted_agree _ hwf).1, (C8_names_sorted_agree _ hwf).2.2.2 "ALPHA"⟩

/-- C4: when an environment provider name or plugin path is present (and
the config blob parses), `loadProviderConfig` returns the
environment-derived selection and the store is not consulted; conversely
the store's `Get` runs only when both environment signals are empty. -/
theorem C4_resolution_precedence
    (parse : String → Except String GoMap)
    (parseStored : String → Except String ProviderConfigReq)
    (sec : Option (String → Except String String))
    (env : String → String) (cap ep ec epl : String) (cfg : GoMap) :
    ((decodeConfig parse env ec = .ok cfg ∧
        (goTrimSpace (goToLower (env ep)) ≠ "" ∨ goTrimSpace (env epl) ≠ "")) →
      loadProviderConfig parse parseStored sec env cap ep ec epl
        = (.ok (goTrimSpace (goToLower (env ep)), cfg, goTrimSpace (env epl)), false)) ∧
    ((loadProviderConfig parse parseStored sec env cap ep ec epl).2 = true →
      goTrimSpace (goToLower (env ep)) = "" ∧ goTrimSpace (env epl) = "") := by
  constructor
  · rintro ⟨hcfg, hsig⟩
    simp only [loadProviderConfig, hcfg]
    rw [if_pos hsig]
  · intro hflag
    by_cases hname : goTrimSpace (goToLower (env ep)) = ""
    · by_cases hplug : goTrimSpace (env epl) = ""
      · exact ⟨hname, hplug⟩
      · exfalso
        cases hdec : decodeConfig parse env ec with
        | error e => simp [loadProviderConfig, hdec] at hflag
        | ok c => simp [loadProviderConfig, hdec, hplug] at hflag
    · exfalso
      cases hdec : decodeConfig parse env ec with
      | error e => simp [loadProviderConfig, hdec] at hflag
      | ok c => simp [loadProviderConfig, hdec, hname] at hflag

/-- C4, witness: with an environment name ` Mock ` and a stored selection
available, resolution returns the trimmed, folded environment name and
never reads the store. -/
theorem C4_resolution_precedence_witness :
    loadProviderConfig (fun _ => .ok (some [])) (fun _ => .error "unused")
      (some (fun _ => .ok "STORED")) (fun v => if v = "P" then " Mock " else "")
      "incident" "P" "C" "G"
      = (.ok ("mock", some [], ""), false) := by
  have h := (C4_resolution_precedence (fun _ => .ok (some [])) (fun _ => .error "unused")
    (some (fun _ => .ok "STORED")) (fun v => if v = "P" then " Mock " else "")
    "incident" "P" "C" "G" (some [])).1 ⟨by rfl, Or.inl (by decide)⟩
  exact h

/-- C5: an absent config blob defaults to the empty map, while a present
blob that fails to parse makes `loadProviderConfig` fail immediately with
the configuration error — no fall-through to the plugin-path or
stored-selection levels, and the store is never consulted. -/
theorem C5_malformed_config_fatal
    (parse : String → Except String GoMap)
    (parseStored : String → Except String ProviderConfigReq)
    (sec : Option (String → Except String String))
    (env : String → String) (cap ep ec epl e : String) :
    (goTrimSpace (env ec) = "" → decodeConfig parse env ec = .ok (some [])) ∧
    (goTrimSpace (env ec) ≠ "" → parse (goTrimSpace (env ec)) = .error e →
      loadProviderConfig parse parseStored sec env cap ep ec epl
        = (.error ("invalid config in " ++ ec ++ ": " ++ e), false)) := by
  constructor
  · intro h
    simp [decodeConfig, h]
  · intro h hp
    have hdec : decodeConfig parse env ec
        = .error ("invalid config in " ++ ec ++ ": " ++ e) := by
      simp [decodeConfig, h, hp]
    simp [loadProviderConfig, hdec]

/-- C5, witness: a malformed blob `{bad` fails resolution with the
configuration error even though a plugin path and a stored selection are
both available; an absent blob yields `{}`. -/
theorem C5_malformed_config_fatal_witness :
    loadProviderConfig (fun _ => .error "unexpected end of JSON input")
      (fun _ => .error "unused") (some (fun _ => .ok "STORED"))
      (fun v => if v = "C" then "\x7bbad" else if v = "G" then "/bin/plug" else "")
      "log" "P" "C" "G"
      = (.error "invalid config in C: unexpected end of JSON input", false) ∧
    decodeConfig (fun _ => .error "unexpected end of JSON input")
      (fun _ => "") "C" = .ok (some []) := by
  constructor
  · exact (C5_malformed_config_fatal (fun _ => .error "unexpected end of JSON input")
      (fun _ => .error "unused") (some (fun _ => .ok "STORED"))
      (fun v => if v = "C" then "\x7bbad" else if v = "G" then "/bin/plug" else "")
      "log" "P" "C" "G" "unexpected end of JSON input").2 (by decide) (by rfl)
  · exact (C5_malformed_config_fatal (fun _ => .error "unexpected end of JSON input")
      (fun _ => .error "unused") (some (fun _ => .ok "STORED"))
      (fun _ => "") "log" "P" "C" "G" "unused").1 (by rfl)

/-- C1, counterexample: with a malformed incident config blob and a valid
log configuration, the log capability alone resolves fine, yet
`NewServerFromEnv` fails outright — incident's bad configuration prevents
the whole server (and thus the log capability) from starting, so
partial-failure isolation does not hold for every pair of capabilities. -/
theorem C1_counterexample :
    newServerFromEnv rejectParse (fun _ => .error "unused") none badIncidentEnv mockLogLookups
      = .error "invalid config in OPSORCH_INCIDENT_CONFIG: unexpected end of JSON input" ∧
    newHandlerFromEnv rejectParse (fun _ => .error "unused") none badIncidentEnv "log"
        "OPSORCH_LOG_PROVIDER" "OPSORCH_LOG_CONFIG" "OPSORCH_LOG_PLUGIN" mockLogLookups.log
      = .ok (some (.inProc ())) := by
  exact ⟨rfl, rfl⟩

/-- C1, amended: partial-failure isolation holds only for the deployment
capability: if deployment's resolution fails while the seven other
capabilities resolve, server construction still succeeds with deployment
unconfigured and every other capability holding its resolved provider;
a resolution failure in any non-deployment capability (e.g. incident, as
the counterexample shows) aborts server construction. -/
theorem C1_deployment_isolation {P : Type}
    (parse : String → Except String GoMap)
    (parseStored : String → Except String ProviderConfigReq)
    (sec : Option (String → Except String String))
    (env : String → String) (lk : Lookups P)
    (pi pa pl pm pt pg ps : Option (ProviderHandle P)) (e : String)
    (htls : decide (goTrimSpace (env "OPSORCH_TLS_CERT_FILE") = "")
          = decide (goTrimSpace (env "OPSORCH_TLS_KEY_FILE") = ""))
    (hinc : newHandlerFromEnv parse parseStored sec env "incident"
      "OPSORCH_INCIDENT_PROVIDER" "OPSORCH_INCIDENT_CONFIG" "OPSORCH_INCIDENT_PLUGIN"
      lk.incident = .ok pi)
    (hal : newAlertHandlerFromEnv parse parseStored sec env lk.alert = .ok pa)
    (hlg : newHandlerFromEnv parse parseStored sec env "log"
      "OPSORCH_LOG_PROVIDER" "OPSORCH_LOG_CONFIG" "OPSORCH_LOG_PLUGIN"
      lk.log = .ok pl)
    (hmt : newHandlerFromEnv parse parseStored sec env "metric"
      "OPSORCH_METRIC_PROVIDER" "OPSORCH_METRIC_CONFIG" "OPSORCH_METRIC_PLUGIN"
      lk.metric = .ok pm)
    (htk : newHandlerFromEnv parse parseStored sec env "ticket"
      "OPSORCH_TICKET_PROVIDER" "OPSORCH_TICKET_CONFIG" "OPSORCH_TICKET_PLUGIN"
      lk.ticket = .ok pt)
    (hmsg : newHandlerFromEnv parse parseStored sec env "messaging"
      "OPSORCH_MESSAGING_PROVIDER" "OPSORCH_MESSAGING_CONFIG" "OPSORCH_MESSAGING_PLUGIN"
      lk.messaging = .ok pg)
    (hsvc : newHandlerFromEnv parse parseStored sec env "service"
      "OPSORCH_SERVICE_PROVIDER" "OPSORCH_SERVICE_CONFIG" "OPSORCH_SERVICE_PLUGIN"
      lk.service = .ok ps)
    (hdep : newHandlerFromEnv parse parseStored sec env "deployment"
      "OPSORCH_DEPLOYMENT_PROVIDER" "OPSORCH_DEPLOYMENT_CONFIG" "OPSORCH_DEPLOYMENT_PLUGIN"
      lk.deployment = .error e) :
    newServerFromEnv parse parseStored sec env lk
      = .ok { incident := pi, alert := pa, log := pl, metric := pm,
              ticket := pt, messaging := pg, service := ps, deployment := none } := by
  simp [newServerFromEnv, htls, hinc, hal, hlg, hmt, htk, hmsg, hsvc, hdep,
    Bind.bind, Except.bind, Pure.pure, Except.pure]

/-- C1, witness: deployment names an unregistered provider `ghost`, every
other capability is unset; the server still constructs, with deployment
unconfigured. -/
theorem C1_deployment_isolation_witness :
    newServerFromEnv rejectParse (fun _ => .error "unused") none ghostDeploymentEnv emptyLookups
      = .ok { incident := none, alert := none, log := none, metric := none,
              ticket := none, messaging := none, service := none, deployment := none } := by
  exact C1_deployment_isolation rejectParse (fun _ => .error "unused") none ghostDeploymentEnv
    emptyLookups none none none none none none none
    "deployment provider ghost not registered" rfl rfl rfl rfl rfl rfl rfl rfl rfl

/-- C3: plugin RPC response decoding: a declared error with a non-empty
code yields a typed error with exactly that code and message; an empty
code with a message yields an untyped error carrying the message; no
declared error with an absent result and nil output target is success;
otherwise the result payload is decoded into the caller's result. -/
theorem C3_plugin_response_decoding {α : Type} (unmarshal : String → Except String α)
    (outPresent : Bool) (resp : RpcResponse) (e : RpcError) (r : String) (v : α) :
    (resp.error = some e → e.code ≠ "" →
      pluginCallDecode unmarshal outPresent resp = .typedError e.code e.message) ∧
    (resp.error = some e → e.code = "" →
      pluginCallDecode unmarshal outPresent resp = .untypedError e.message) ∧
    (resp.error = none → resp.result = none → outPresent = false →
      pluginCallDecode unmarshal outPresent resp = .success none) ∧
    (resp.error = none → resp.result = some r → outPresent = true → unmarshal r = .ok v →
      pluginCallDecode unmarshal outPresent resp = .success (some v)) := by
  refine ⟨?_, ?_, ?_, ?_⟩
  · intro he hc; simp [pluginCallDecode, he, hc]
  · intro he hc; simp [pluginCallDecode, he, hc]
  · intro he hr ho; simp [pluginCallDecode, he, hr, ho]
  · intro he hr ho hu; simp [pluginCallDecode, he, hr, ho, hu]

/-- C3, witness: the four decoding behaviors at concrete responses. -/
theorem C3_plugin_response_decoding_witness :
    pluginCallDecode (fun s => .ok s) true ⟨none, some ⟨"not_found", "gone"⟩⟩
      = .typedError "not_found" "gone" ∧
    pluginCallDecode (fun s => .ok s) true ⟨none, some ⟨"", "broken pipe"⟩⟩
      = .untypedError "broken pipe" ∧
    pluginCallDecode (fun s => .ok s) false (⟨none, none⟩ : RpcResponse)
      = .success none ∧
    pluginCallDecode (fun s => .ok s) true ⟨some "[]", none⟩
      = .success (some "[]") := by
  refine ⟨?_, ?_, ?_, ?_⟩
  · exact (C3_plugin_response_decoding (fun s => .ok s) true ⟨none, some ⟨"not_found", "gone"⟩⟩
      ⟨"not_found", "gone"⟩ "x" "x").1 rfl (by decide)
  · exact (C3_plugin_response_decoding (fun s => .ok s) true ⟨none, some ⟨"", "broken pipe"⟩⟩
      ⟨"", "broken pipe"⟩ "x" "x").2.1 rfl rfl
  · exact (C3_plugin_response_decoding (fun s => .ok s) false ⟨none, none⟩
      ⟨"", ""⟩ "x" "x").2.2.1 rfl rfl rfl
  · exact (C3_plugin_response_decoding (fun s => .ok s) true ⟨some "[]", none⟩
      ⟨"", ""⟩ "[]" "[]").2.2.2 rfl rfl rfl rfl

/-- C9: the child process started by the first call is bound to the
background context and reused; cancelling the first caller's context
leaves it running, and a second call on the same handle reuses the same
process and still succeeds. -/
theorem C9_plugin_survives_cancel {α : Type} (path : String) (cfg : GoMap)
    (c1 c2 : CtxId) (f1 f2 : Nat) (unm : String → Except String α)
    (op : Bool) (resp1 resp2 : RpcResponse)
    (h1 : c1 ≠ backgroundCtx)
    (he : resp2.error = none) (hr : resp2.result = none) (ho : op = false) :
    (pluginCall (newPluginRunner path cfg) c1 f1 unm op resp1).1.proc = some f1 ∧
    cancelCtx (pluginCall (newPluginRunner path cfg) c1 f1 unm op resp1).1 c1
      = (pluginCall (newPluginRunner path cfg) c1 f1 unm op resp1).1 ∧
    (pluginCall (cancelCtx (pluginCall (newPluginRunner path cfg) c1 f1 unm op resp1).1 c1)
        c2 f2 unm op resp2).1
      = (pluginCall (newPluginRunner path cfg) c1 f1 unm op resp1).1 ∧
    (pluginCall (cancelCtx (pluginCall (newPluginRunner path cfg) c1 f1 unm op resp1).1 c1)
        c2 f2 unm op resp2).2 = .success none := by
  have hs1 : (pluginCall (newPluginRunner path cfg) c1 f1 unm op resp1).1
      = { path := path, config := some (cfg.getD []), proc := some f1,
          procCtx := backgroundCtx } := by
    simp [pluginCall, ensureProcess, newPluginRunner]
  have hcan : cancelCtx (pluginCall (newPluginRunner path cfg) c1 f1 unm op resp1).1 c1
      = (pluginCall (newPluginRunner path cfg) c1 f1 unm op resp1).1 := by
    rw [hs1, cancelCtx, if_neg]
    intro hh
    exact h1 hh.symm
  refine ⟨by rw [hs1], hcan, ?_, ?_⟩
  · rw [hcan, hs1]
    simp [pluginCall, ensureProcess]
  · rw [hcan]
    simp [pluginCall, pluginCallDecode, he, hr, ho]

/-- C9, witness: a concrete handle whose process survives the first
caller's cancellation and answers the second call. -/
theorem C9_plugin_survives_cancel_witness :
    (pluginCall (newPluginRunner "/bin/incidentmock" none) 1 7
        (fun s => Except.ok s) false ⟨none, none⟩).1.proc = some 7 ∧
    (pluginCall (cancelCtx (pluginCall (newPluginRunner "/bin/incidentmock" none) 1 7
          (fun s => Except.ok s) false ⟨none, none⟩).1 1)
        2 8 (fun s => Except.ok s) false ⟨none, none⟩).2
      = .success none := by
  have h := C9_plugin_survives_cancel "/bin/incidentmock" none 1 2 7 8
    (fun s => Except.ok s) false ⟨none, none⟩ ⟨none, none⟩ (by decide) rfl rfl rfl
  exact ⟨h.1, h.2.2.2⟩

/-- C7: a request whose path matches an unconfigured capability's route
answers 501 with the capability-specific `_provider_missing` code and the
fixed message, never 200, for both the incident and the log handler. -/
theorem C7_unconfigured_capability {α : Type} (decode : String → Except String α)
    (method path body method2 path2 body2 : String)
    (hp : goHasLead path "/incidents" = true) (hl : path2 = "/logs/query") :
    handleIncident decode (none : Option (IncidentOps α)) method path body
      = .respond 501 (.err "incident_provider_missing" "incident provider not configured") ∧
    handleLog decode (none : Option (α → Except GoError α)) method2 path2 body2
      = .respond 501 (.err "log_provider_missing" "log provider not configured") := by
  constructor
  · simp [handleIncident, hp]
  · simp [handleLog, hl]

/-- C7, witness: unconfigured incident and log capabilities at concrete
requests. -/
theorem C7_unconfigured_capability_witness :
    handleIncident (fun _ => .ok ()) (none : Option (IncidentOps Unit)) "GET" "/incidents/i-9" ""
      = .respond 501 (.err "incident_provider_missing" "incident provider not configured") ∧
    handleLog (fun _ => .ok ()) (none : Option (Unit → Except GoError Unit)) "POST" "/logs/query" "{}"
      = .respond 501 (.err "log_provider_missing" "log provider not configured") := by
  exact C7_unconfigured_capability (fun _ => .ok ()) "GET" "/incidents/i-9" ""
    "POST" "/logs/query" "{}" (by decide) rfl

/-- C10: when applying a new provider selection succeeds but persisting it
to the secret store fails, the endpoint answers 502 `secret_store_error`
while the in-memory provider for that capability has already been swapped
to the new one and stays swapped. -/
theorem C10_swap_not_rolled_back {P : Type}
    (decodeReq : String → Except String ProviderConfigReq)
    (marshal : ProviderConfigReq → Except String String)
    (lookup : Cap → String → Option (Ctor P))
    (put : String → String → Option String)
    (provs : Cap → Option (ProviderHandle P))
    (path body : String) (cap : Cap) (req : ProviderConfigReq)
    (newProv : ProviderHandle P) (bytes e : String)
    (hpath : goHasLead path "/providers/" = true)
    (hcap : normalizeCapability (goStripLead path "/providers/") = some cap)
    (hdec : decodeReq body = .ok req)
    (hprov : req.provider ≠ "")
    (hsw : cap ∈ configSwitchCaps)
    (happly : applyProviderConfig (lookup cap) cap.name req.provider req.plugin req.config
      = .ok newProv)
    (hmar : marshal req = .ok bytes)
    (hput : put (providerConfigKey cap.name) bytes = some e) :
    handleProviderConfig decodeReq marshal lookup (some put) provs "POST" path body
      = .respond 502 (.err "secret_store_error" e)
          (fun c => if c = cap then some newProv else provs c) ∧
    (fun c => if c = cap then some newProv else provs c) cap = some newProv := by
  constructor
  · simp [handleProviderConfig, hpath, hcap, hdec, hprov, hsw, happly, hmar, hput]
  · simp

/-- C10, witness: configuring the incident provider succeeds in memory but
the store write fails; the response is the 502 and the state carries the
new provider. -/
theorem C10_swap_not_rolled_back_witness :
    handleProviderConfig (fun _ => .ok ⟨"mock", some [], ""⟩) (fun _ => .ok "[]")
      (fun _ n => if n = "mock" then some (fun _ => .ok ()) else none)
      (some (fun _ _ => some "store down")) (fun _ => none)
      "POST" "/providers/incident" "{}"
      = .respond 502 (.err "secret_store_error" "store down")
          (fun c => if c = Cap.incident then some (.inProc ()) else none) ∧
    (fun c => if c = Cap.incident then some (ProviderHandle.inProc ())
        else (none : Option (ProviderHandle Unit))) Cap.incident
      = some (.inProc ()) := by
  exact C10_swap_not_rolled_back (fun _ => .ok ⟨"mock", some [], ""⟩) (fun _ => .ok "[]")
    (fun _ n => if n = "mock" then some (fun _ => .ok ()) else none)
    (fun _ _ => some "store down") (fun _ => none)
    "/providers/incident" "{}" Cap.incident ⟨"mock", some [], ""⟩ (.inProc ()) "[]" "store down"
    (by decide) rfl rfl (by decide) (by decide) rfl rfl rfl

end OpsOrch
